import Mathlib

/-!
Shallow embedding of the GET /users route of src/server/user.js and its two
helper functions fetchCustomerData and fetchProductData.

Modelling conventions:
* A remote call that returns a promise is modelled by its outcome,
  `Except Unit A`: `Except.error ()` is a rejected promise, `Except.ok a`
  a promise resolved with the value `a`.  Error payloads are irrelevant to
  the route's behaviour, hence `Unit`.
* `client.query` may also throw synchronously instead of returning a
  promise; where that distinction is observable (inside fetchProductData,
  whose body never awaits) the behaviour is a `CallBehavior`:
  `.throws` for a synchronous throw, `.returns p` for a returned promise
  with outcome `p`.  Inside fetchCustomerData the query is awaited under
  a try/catch, so a synchronous throw and a rejected promise are
  indistinguishable and a plain `Except` suffices.
* JavaScript null/undefined values are `Option.none`.
* The route handler's result is an `Option HttpResponse`: `some r` means
  exactly one response `r` was written, `none` means the request
  terminates with no response ever written to the caller (the hang paths,
  where an error is only logged or a rejection stays unhandled).
* A `CallTrace` records which external calls were issued and with which
  argument, so that claims of the form "no store query is issued" are
  statable.
-/

deriving instance DecidableEq for Except

/-- GraphQL customer image node: `image { src }`. -/
structure CustomerImage where
  src : String
deriving DecidableEq, Repr

/-- `response.data.customer` of the customer query: id, firstName, image. -/
structure Customer where
  id : String
  firstName : String
  image : Option CustomerImage
deriving DecidableEq, Repr

/-- `response.data.product` of the first product sub-query:
id, title, description, onlineStoreUrl. -/
structure ProductCore where
  id : String
  title : String
  description : String
  onlineStoreUrl : String
deriving DecidableEq, Repr

/-- The `image` object of a media node: width, height, url. -/
structure ImageData where
  width : Int
  height : Int
  url : String
deriving DecidableEq, Repr

/-- One node of `data.product.media.nodes` in the image sub-query. -/
structure MediaNode where
  id : String
  alt : String
  image : ImageData
deriving DecidableEq, Repr

/-- The image record the merge callback attaches to the product
(`product.image = ...` in fetchProductData), and which the handler copies
field by field into the response. -/
structure ProductImage where
  id : String
  alt : String
  url : String
  width : Int
  height : Int
deriving DecidableEq, Repr

/-- A product record after the merge callback ran: the core fields plus the
optionally attached image. -/
structure Product where
  id : String
  title : String
  description : String
  onlineStoreUrl : String
  image : Option ProductImage
deriving DecidableEq, Repr

/-- One row of the MySQL result set: the selected `favorite_product_id`
column, NULL modelled as `none`. -/
structure StoreRow where
  favorite_product_id : Option String
deriving DecidableEq, Repr

/-- Behaviour of one `client.query` invocation: it can throw synchronously,
or return a promise that rejects or resolves. -/
inductive CallBehavior (A : Type) where
  | throws : CallBehavior A
  | returns : Except Unit A → CallBehavior A
deriving DecidableEq, Repr

/-- The `product` part of the JSON success body written by `res.json`:
id, title, description, onlineStoreUrl, and `image` (the copied image
fields, or null). -/
structure ProductOut where
  id : String
  title : String
  description : String
  onlineStoreUrl : String
  image : Option ProductImage
deriving DecidableEq, Repr

/-- The JSON success body: firstName, profileImage (note: the handler
destructures `image: profileImage`, so this is the customer's image node,
not a bare URL string), and the product object. -/
structure SuccessBody where
  firstName : String
  profileImage : Option CustomerImage
  product : ProductOut
deriving DecidableEq, Repr

/-- A response body: either an error object with a single `error` string
field, or the success body. -/
inductive Body where
  | errorMsg : String → Body
  | success : SuccessBody → Body
deriving DecidableEq, Repr

/-- An HTTP response: status code and JSON body. -/
structure HttpResponse where
  status : Nat
  body : Body
deriving DecidableEq, Repr

/-- Which external calls the handler issued, and with which argument.
`customerCall`: argument of fetchCustomerData, `none` if never invoked.
`storeCall`: the user id bound into the `db.query` placeholder, `none` if
the store was never queried.  `productCall`: argument of fetchProductData
(`some none` means it was invoked with a null product id), `none` if never
invoked. -/
structure CallTrace where
  customerCall : Option String
  storeCall : Option String
  productCall : Option (Option String)
deriving DecidableEq, Repr

/-- Behaviour of the external collaborators for one request:
the customer query outcome (`response.data.customer`, possibly null), the
store query outcome (error or a list of rows), and the two product
sub-queries (`data.product` possibly null; `data.product` of the media
query possibly null, otherwise its `media.nodes` list). -/
structure Env where
  customerQuery : Except Unit (Option Customer)
  storeQuery : Except Unit (List StoreRow)
  productQuery : CallBehavior (Option ProductCore)
  imageQuery : CallBehavior (Option (List MediaNode))
deriving DecidableEq, Repr

/-- What the handler produced: the response written to the caller (if any)
and the trace of external calls. -/
structure HandlerOutcome where
  response : Option HttpResponse
  trace : CallTrace
deriving DecidableEq, Repr

/-- Embedding of `fetchCustomerData` (src/server/user.js lines 158-176):
awaits the customer query and returns `response.data.customer`; on any
error it logs and throws `new Error` with the message
Failed to fetch customer data, i.e. the returned promise rejects. -/
def fetchCustomerData (customerId : String)
    (customerQuery : Except Unit (Option Customer)) :
    Except Unit (Option Customer) :=
  match customerId, customerQuery with
  | _, Except.ok response => Except.ok response
  | _, Except.error _ => Except.error ()

/-- Embedding of the merge callback handed to
`Promise.all([productData, productImage]).then(...)` inside
fetchProductData (src/server/user.js lines 222-239), over the two resolved
values.  It returns null when the first sub-query found no product (before
touching the image response); otherwise it reads
`responses[1].data.product.media.nodes[0]` — when that `data.product` is
null the access throws a TypeError inside the detached promise chain,
modelled as the outer `none`; otherwise it attaches the first node (if
any) as `product.image` and returns the product. -/
def productMerge (productResp : Option ProductCore)
    (imageResp : Option (List MediaNode)) : Option (Option Product) :=
  match productResp with
  | none => some none
  | some product =>
    match imageResp with
    | none => none
    | some nodes =>
      match nodes.head? with
      | some image =>
        some (some ⟨product.id, product.title, product.description,
          product.onlineStoreUrl,
          some ⟨image.id, image.alt, image.image.url, image.image.width,
            image.image.height⟩⟩)
      | none =>
        some (some ⟨product.id, product.title, product.description,
          product.onlineStoreUrl, none⟩)

/-- Embedding of `fetchProductData` (src/server/user.js lines 186-244).
The body wraps the two `client.query` calls in `Promise.resolve`, then
builds `Promise.all([productData, productImage]).then(merge)` WITHOUT
returning it and without awaiting anything: the chain is detached, the
merge callback's value (`productMerge`) goes nowhere, and the async
function falls off the end, so its promise resolves with undefined —
regardless of whether the two query promises resolve or reject (a
rejection only surfaces as an unhandled rejection in the detached chain).
The surrounding try/catch only sees a synchronous throw of `client.query`
itself, in which case it logs and rethrows, i.e. the returned promise
rejects.  `productId` is only interpolated into the query text. -/
def fetchProductData (productId : Option String)
    (productQuery : CallBehavior (Option ProductCore))
    (imageQuery : CallBehavior (Option (List MediaNode))) :
    Except Unit (Option Product) :=
  match productId, productQuery with
  | _, CallBehavior.throws => Except.error ()
  | _, CallBehavior.returns _ =>
    match imageQuery with
    | CallBehavior.throws => Except.error ()
    | CallBehavior.returns _ => Except.ok none

/-- Trace of a request that issued no external call at all. -/
def noCalls : CallTrace := ⟨none, none, none⟩

/-- Embedding of the `app.get` handler for /users
(src/server/user.js lines 63-142).  `userId` is `req.query` at key
user_id: `none` when absent, `some s` when present.  The JavaScript guard
`if (!userId)` is falsy for both undefined and the empty string.

Promise-chain structure (decisive for the no-response paths): the chain is
`fetchCustomerData(userId).then(cb)` with NO catch attached — both
`.catch` clauses in the source are chained, inside the db.query callback,
onto `fetchProductData(...).then(...)`: the first one only logs, and the
second one (which would write the 500 Failed to fetch customer data
response) sits behind the first, whose handler always resolves, so it can
never fire.  Hence a rejection of fetchCustomerData is unhandled (no
response), and a rejection of fetchProductData is swallowed by the
log-only catch (no response). -/
def getUsers (userId : Option String) (env : Env) : HandlerOutcome :=
  match userId with
  | none =>
    ⟨some ⟨400, Body.errorMsg "Missing user_id query parameter"⟩, noCalls⟩
  | some uid =>
    if uid = "" then
      ⟨some ⟨400, Body.errorMsg "Missing user_id query parameter"⟩, noCalls⟩
    else
      match fetchCustomerData uid env.customerQuery with
      | Except.error _ =>
        ⟨none, ⟨some uid, none, none⟩⟩
      | Except.ok none =>
        ⟨some ⟨404, Body.errorMsg "Customer not found"⟩,
          ⟨some uid, none, none⟩⟩
      | Except.ok (some customerData) =>
        match env.storeQuery with
        | Except.error _ =>
          ⟨some ⟨500, Body.errorMsg "Database query error"⟩,
            ⟨some uid, some uid, none⟩⟩
        | Except.ok results =>
          if results.length = 0 then
            ⟨some ⟨404, Body.errorMsg "Favorite product not found"⟩,
              ⟨some uid, some uid, none⟩⟩
          else
            let favoriteProductId :=
              results.head?.bind (fun row => row.favorite_product_id)
            match fetchProductData favoriteProductId env.productQuery
                env.imageQuery with
            | Except.error _ =>
              ⟨none, ⟨some uid, some uid, some favoriteProductId⟩⟩
            | Except.ok none =>
              ⟨some ⟨404, Body.errorMsg "Product not found"⟩,
                ⟨some uid, some uid, some favoriteProductId⟩⟩
            | Except.ok (some productData) =>
              ⟨some ⟨200, Body.success
                  ⟨customerData.firstName, customerData.image,
                    ⟨productData.id, productData.title,
                      productData.description, productData.onlineStoreUrl,
                      productData.image⟩⟩⟩,
                ⟨some uid, some uid, some favoriteProductId⟩⟩

/-! Helper lemmas shared by several results. -/

/-- fetchProductData never resolves with a product: the merged value of the
detached Promise.all continuation is not returned from the function. -/
theorem fetchProductData_ne_ok_some (productId : Option String)
    (productQuery : CallBehavior (Option ProductCore))
    (imageQuery : CallBehavior (Option (List MediaNode))) (p : Product) :
    fetchProductData productId productQuery imageQuery ≠
      Except.ok (some p) := by
  cases productQuery <;> cases imageQuery <;> simp [fetchProductData]

/-- Every response the handler writes is one of the five error responses;
in particular the 200 success branch is never taken. -/
theorem getUsers_response_cases (userId : Option String) (env : Env) :
    (getUsers userId env).response = none ∨
    (getUsers userId env).response =
      some ⟨400, Body.errorMsg "Missing user_id query parameter"⟩ ∨
    (getUsers userId env).response =
      some ⟨404, Body.errorMsg "Customer not found"⟩ ∨
    (getUsers userId env).response =
      some ⟨500, Body.errorMsg "Database query error"⟩ ∨
    (getUsers userId env).response =
      some ⟨404, Body.errorMsg "Favorite product not found"⟩ ∨
    (getUsers userId env).response =
      some ⟨404, Body.errorMsg "Product not found"⟩ := by
  obtain ⟨cq, sq, pq, iq⟩ := env
  cases userId with
  | none => simp [getUsers]
  | some u =>
    by_cases hu : u = ""
    · simp [getUsers, hu]
    · cases cq with
      | error e => simp [getUsers, hu, fetchCustomerData]
      | ok oc =>
        cases oc with
        | none => simp [getUsers, hu, fetchCustomerData]
        | some c =>
          cases sq with
          | error e => simp [getUsers, hu, fetchCustomerData]
          | ok results =>
            by_cases hr : results.length = 0
            · simp [getUsers, hu, fetchCustomerData, hr]
            · cases pq <;> cases iq <;>
                simp [getUsers, hu, fetchCustomerData, hr, fetchProductData]

/-- No response written by the handler carries status 200. -/
theorem getUsers_no_200 (userId : Option String) (env : Env)
    (r : HttpResponse) (h : (getUsers userId env).response = some r) :
    r.status ≠ 200 := by
  rcases getUsers_response_cases userId env with h0 | h0 | h0 | h0 | h0 | h0 <;>
    rw [h0] at h
  · exact absurd h (by simp)
  all_goals (cases Option.some.inj h; decide)

/-! Example environments used in closed theorems and witnesses. -/

/-- The customer of the end-to-end example of the spec. -/
def anaCustomer : Customer := ⟨"42", "Ana", some ⟨"https://x/a.png"⟩⟩

/-- The product core of the end-to-end example of the spec. -/
def mugCore : ProductCore := ⟨"99", "Mug", "Ceramic", "https://shop/mug"⟩

/-- External behaviour of the end-to-end example: customer found, one
store row with favorite_product_id 99, product found, media query
resolves with an empty node list. -/
def exampleEnv : Env :=
  ⟨Except.ok (some anaCustomer), Except.ok [⟨some "99"⟩],
    CallBehavior.returns (Except.ok (some mugCore)),
    CallBehavior.returns (Except.ok (some []))⟩

/-- A valid chain with no image for user 7: customer found, favorite row
5, product found, media query resolves with an empty node list. -/
def potEnv : Env :=
  ⟨Except.ok (some ⟨"7", "Bo", none⟩), Except.ok [⟨some "5"⟩],
    CallBehavior.returns (Except.ok (some ⟨"5", "Pot", "Clay",
      "https://shop/pot"⟩)),
    CallBehavior.returns (Except.ok (some []))⟩

/-- C1: for the end-to-end example input the spec expects a 200 response
with the composed body; the handler instead answers 404 Product not found,
because the merged product is only computed by the detached continuation
inside fetchProductData (second conjunct) and never returned from it. -/
theorem c1_example_responds_404_not_200 :
    getUsers (some "42") exampleEnv =
      ⟨some ⟨404, Body.errorMsg "Product not found"⟩,
        ⟨some "42", some "42", some (some "99")⟩⟩
    ∧ productMerge (some mugCore) (some []) =
      some (some ⟨"99", "Mug", "Ceramic", "https://shop/mug", none⟩) :=
  ⟨rfl, rfl⟩

/-- C2: a fully valid chain whose media sub-query returns no image node is
claimed to produce a 200 response with product.image null; the handler
instead answers 404 Product not found.  The second conjunct shows the
discarded merge value is exactly the product with a null image the spec
expects. -/
theorem c2_no_image_chain_responds_404 :
    (getUsers (some "7") potEnv).response =
      some ⟨404, Body.errorMsg "Product not found"⟩
    ∧ productMerge (some ⟨"5", "Pot", "Clay", "https://shop/pot"⟩)
        (some []) =
      some (some ⟨"5", "Pot", "Clay", "https://shop/pot", none⟩) :=
  ⟨rfl, rfl⟩

/-- C3: whenever both product sub-queries resolve, fetchProductData
resolves with undefined (first conjunct); consequently every request that
reaches the product-fetch stage with both sub-queries returning promises
is answered 404 Product not found (second conjunct), and no response of
the handler ever has status 200 (third conjunct). -/
theorem c3_product_always_undefined_success_unreachable :
    (∀ (productId : Option String)
        (pa : Option ProductCore) (ib : Option (List MediaNode)),
      fetchProductData productId
          (CallBehavior.returns (Except.ok pa))
          (CallBehavior.returns (Except.ok ib)) = Except.ok none)
    ∧ (∀ (u : String) (env : Env) (c : Customer) (results : List StoreRow)
        (a : Except Unit (Option ProductCore))
        (b : Except Unit (Option (List MediaNode))),
      u ≠ "" → env.customerQuery = Except.ok (some c) →
      env.storeQuery = Except.ok results → results.length ≠ 0 →
      env.productQuery = CallBehavior.returns a →
      env.imageQuery = CallBehavior.returns b →
      (getUsers (some u) env).response =
        some ⟨404, Body.errorMsg "Product not found"⟩)
    ∧ (∀ (userId : Option String) (env : Env) (r : HttpResponse),
      (getUsers userId env).response = some r → r.status ≠ 200) := by
  refine ⟨fun productId pa ib => rfl, fun u env c results a b hu hc hs hr hp hi => ?_, getUsers_no_200⟩
  simp [getUsers, fetchCustomerData, fetchProductData, hu, hc, hs, hr, hp, hi]

/-- Witness for C3 at the end-to-end example environment. -/
theorem c3_product_always_undefined_success_unreachable_witness :
    fetchProductData (some "99")
        (CallBehavior.returns (Except.ok (some mugCore)))
        (CallBehavior.returns (Except.ok (some []))) = Except.ok none
    ∧ (getUsers (some "42") exampleEnv).response =
        some ⟨404, Body.errorMsg "Product not found"⟩
    ∧ (⟨404, Body.errorMsg "Product not found"⟩ : HttpResponse).status ≠
        200 :=
  ⟨c3_product_always_undefined_success_unreachable.1 (some "99")
      (some mugCore) (some []),
    c3_product_always_undefined_success_unreachable.2.1 "42" exampleEnv
      anaCustomer [⟨some "99"⟩] (Except.ok (some mugCore))
      (Except.ok (some [])) (by decide) rfl rfl (by decide) rfl rfl,
    c3_product_always_undefined_success_unreachable.2.2 (some "42")
      exampleEnv ⟨404, Body.errorMsg "Product not found"⟩ rfl⟩

/-- Environment where the second product sub-query call throws
synchronously: customer found, favorite row present. -/
def throwingProductEnv : Env :=
  ⟨Except.ok (some ⟨"8", "Di", none⟩), Except.ok [⟨some "6"⟩],
    CallBehavior.throws, CallBehavior.returns (Except.ok none)⟩

/-- Environment where the customer lookup rejects. -/
def rejectingCustomerEnv : Env :=
  ⟨Except.error (), Except.ok [⟨some "9"⟩],
    CallBehavior.returns (Except.ok none),
    CallBehavior.returns (Except.ok none)⟩

/-- C4: two failure paths terminate with no response at all.  First: a
product-stage fault (client.query throws, fetchProductData rejects) is
swallowed by the log-only catch.  Second: a rejected customer lookup is
unhandled, since no catch is attached to the fetchCustomerData chain. -/
theorem c4_failure_paths_send_no_response :
    (getUsers (some "8") throwingProductEnv).response = none
    ∧ (getUsers (some "8")
        ⟨Except.error (), Except.ok [],
          CallBehavior.returns (Except.ok none),
          CallBehavior.returns (Except.ok none)⟩).response = none :=
  ⟨rfl, rfl⟩

/-- C5: when the remote customer lookup rejects, the handler writes no
response at all (the trace shows the customer call was made and nothing
else): the 500 Failed to fetch customer data catch is chained onto the
inner product chain and can never fire. -/
theorem c5_customer_rejection_sends_no_response :
    (getUsers (some "9") rejectingCustomerEnv).response = none
    ∧ (getUsers (some "9") rejectingCustomerEnv).trace =
      ⟨some "9", none, none⟩ :=
  ⟨rfl, rfl⟩

/-- C6: a missing user_id and an empty user_id both produce the 400
response, and no external call of any kind is issued. -/
theorem c6_missing_or_empty_userId_400_no_calls (env : Env) :
    getUsers none env =
      ⟨some ⟨400, Body.errorMsg "Missing user_id query parameter"⟩, noCalls⟩
    ∧ getUsers (some "") env =
      ⟨some ⟨400, Body.errorMsg "Missing user_id query parameter"⟩,
        noCalls⟩ :=
  ⟨rfl, rfl⟩

/-- C7: when the customer query resolves with no customer, the handler
answers 404 Customer not found and the store is never queried. -/
theorem c7_customer_null_404_no_store_query (env : Env) (u : String)
    (hu : u ≠ "") (hc : env.customerQuery = Except.ok none) :
    getUsers (some u) env =
      ⟨some ⟨404, Body.errorMsg "Customer not found"⟩,
        ⟨some u, none, none⟩⟩ := by
  simp [getUsers, fetchCustomerData, hu, hc]

/-- Witness for C7. -/
theorem c7_customer_null_404_no_store_query_witness :
    getUsers (some "42")
        ⟨Except.ok none, Except.ok [],
          CallBehavior.returns (Except.ok none),
          CallBehavior.returns (Except.ok none)⟩ =
      ⟨some ⟨404, Body.errorMsg "Customer not found"⟩,
        ⟨some "42", none, none⟩⟩ :=
  c7_customer_null_404_no_store_query _ "42" (by decide) rfl

/-- C8: with a found customer, a store query resolving with zero rows is
answered 404 Favorite product not found and fetchProductData is never
invoked; a store query fault is answered 500 Database query error. -/
theorem c8_favorite_row_handling (env : Env) (u : String) (c : Customer)
    (hu : u ≠ "") (hc : env.customerQuery = Except.ok (some c)) :
    (env.storeQuery = Except.ok [] →
      getUsers (some u) env =
        ⟨some ⟨404, Body.errorMsg "Favorite product not found"⟩,
          ⟨some u, some u, none⟩⟩)
    ∧ (env.storeQuery = Except.error () →
      getUsers (some u) env =
        ⟨some ⟨500, Body.errorMsg "Database query error"⟩,
          ⟨some u, some u, none⟩⟩) := by
  constructor <;> intro hs <;>
    simp [getUsers, fetchCustomerData, hu, hc, hs]

/-- Witness for C8, one environment per conjunct. -/
theorem c8_favorite_row_handling_witness :
    getUsers (some "7")
        ⟨Except.ok (some ⟨"7", "Bo", none⟩), Except.ok [],
          CallBehavior.returns (Except.ok none),
          CallBehavior.returns (Except.ok none)⟩ =
      ⟨some ⟨404, Body.errorMsg "Favorite product not found"⟩,
        ⟨some "7", some "7", none⟩⟩
    ∧ getUsers (some "7")
        ⟨Except.ok (some ⟨"7", "Bo", none⟩), Except.error (),
          CallBehavior.returns (Except.ok none),
          CallBehavior.returns (Except.ok none)⟩ =
      ⟨some ⟨500, Body.errorMsg "Database query error"⟩,
        ⟨some "7", some "7", none⟩⟩ :=
  ⟨(c8_favorite_row_handling _ "7" ⟨"7", "Bo", none⟩ (by decide) rfl).1 rfl,
    (c8_favorite_row_handling _ "7" ⟨"7", "Bo", none⟩ (by decide) rfl).2
      rfl⟩

/-- Checks, for one request, that a 200 response is only written when the
customer lookup resolved with a customer and the product fetch resolved
with a product, and that its body is composed exactly from those two
records (any non-200 outcome, or no response, passes vacuously). -/
def successImpliesBoth (userId : Option String) (env : Env) : Bool :=
  match (getUsers userId env).response with
  | none => true
  | some r =>
    if r.status = 200 then
      match fetchCustomerData (userId.getD "") env.customerQuery,
        fetchProductData ((getUsers userId env).trace.productCall.getD none)
          env.productQuery env.imageQuery with
      | Except.ok (some c), Except.ok (some p) =>
        r.body == Body.success ⟨c.firstName, c.image,
          ⟨p.id, p.title, p.description, p.onlineStoreUrl, p.image⟩⟩
      | _, _ => false
    else true

/-- C9: for every request and every external behaviour, a success body is
only ever written when both a customer and a product were resolved — no
200 response carries partial data (in this code the 200 branch is in fact
never reached at all, so the invariant holds on every path). -/
theorem c9_success_only_with_both_resolved (userId : Option String)
    (env : Env) : successImpliesBoth userId env = true := by
  unfold successImpliesBoth
  cases h : (getUsers userId env).response with
  | none => rfl
  | some r => simp [getUsers_no_200 userId env r h]

/-- C10: when the store resolves with a first row whose
favorite_product_id is NULL, the handler does not answer 404 Favorite
product not found (the guard only checks for zero rows); it invokes
fetchProductData with the null product identifier. -/
theorem c10_null_favorite_proceeds_to_product (env : Env) (u : String)
    (c : Customer) (rest : List StoreRow) (hu : u ≠ "")
    (hc : env.customerQuery = Except.ok (some c))
    (hs : env.storeQuery = Except.ok (⟨none⟩ :: rest)) :
    (getUsers (some u) env).response ≠
      some ⟨404, Body.errorMsg "Favorite product not found"⟩
    ∧ (getUsers (some u) env).trace.productCall = some none := by
  obtain ⟨cq, sq, pq, iq⟩ := env
  simp only at hc hs
  subst hc; subst hs
  cases pq <;> cases iq <;>
    exact ⟨by simp [getUsers, fetchCustomerData, fetchProductData, hu],
      by simp [getUsers, fetchCustomerData, fetchProductData, hu]⟩

/-- Witness for C10: a concrete environment whose single store row has a
NULL favorite_product_id. -/
theorem c10_null_favorite_proceeds_to_product_witness :
    (getUsers (some "3")
        ⟨Except.ok (some ⟨"3", "Cy", none⟩), Except.ok [⟨none⟩],
          CallBehavior.returns (Except.ok none),
          CallBehavior.returns (Except.ok none)⟩).response ≠
      some ⟨404, Body.errorMsg "Favorite product not found"⟩
    ∧ (getUsers (some "3")
        ⟨Except.ok (some ⟨"3", "Cy", none⟩), Except.ok [⟨none⟩],
          CallBehavior.returns (Except.ok none),
          CallBehavior.returns (Except.ok none)⟩).trace.productCall =
      some none :=
  c10_null_favorite_proceeds_to_product _ "3" ⟨"3", "Cy", none⟩ []
    (by decide) rfl rfl

/-- Witness for C6 at a concrete environment. -/
theorem c6_missing_or_empty_userId_400_no_calls_witness :
    getUsers none
        ⟨Except.ok none, Except.ok [],
          CallBehavior.returns (Except.ok none),
          CallBehavior.returns (Except.ok none)⟩ =
      ⟨some ⟨400, Body.errorMsg "Missing user_id query parameter"⟩, noCalls⟩
    ∧ getUsers (some "")
        ⟨Except.ok none, Except.ok [],
          CallBehavior.returns (Except.ok none),
          CallBehavior.returns (Except.ok none)⟩ =
      ⟨some ⟨400, Body.errorMsg "Missing user_id query parameter"⟩,
        noCalls⟩ :=
  c6_missing_or_empty_userId_400_no_calls _

/-- Witness for C9 at a concrete request. -/
theorem c9_success_only_with_both_resolved_witness :
    successImpliesBoth (some "11")
      ⟨Except.ok (some ⟨"11", "Ed", none⟩), Except.ok [⟨some "2"⟩],
        CallBehavior.returns (Except.ok none),
        CallBehavior.returns (Except.ok none)⟩ = true :=
  c9_success_only_with_both_resolved (some "11") _
